import Mathlib

/-
Verification development for the learn_claude repository: a shallow embedding of
the query-classification and catalog-lookup logic of src/hypervisor_agent.py,
src/aws_helper.py, src/azure_helper.py, src/gcp_helper.py, src/app.py and
src/simple_app.py, together with theorems about it.

Python dictionaries whose keys are strings are embedded as association lists
(insertion order preserved, keys unique), and `dict.get` as `dictGet` below.
Python `None` arguments become `Option.none`; the large literal code-snippet
strings are carried over verbatim (braces and apostrophes written as escapes).
-/

/-- Embedding of Python `d.get(k)` on a string-keyed dict `d` represented as an
association list: the value at the first matching key, if any. -/
def dictGet {α : Type} (m : List (String × α)) (k : String) : Option α :=
  (m.find? (fun p => p.1 == k)).map Prod.snd

/-- Characters stripped by Python `str.strip()` with no argument
(space, tab, newline, carriage return, vertical tab, form feed). -/
def isPySpace (c : Char) : Bool :=
  c == ' ' || c == '\t' || c == '\n' || c == '\r' || c == '\x0b' || c == '\x0c'

/-- Embedding of Python `s.strip()`: drop leading and trailing whitespace. -/
def pyStrip (s : String) : String :=
  String.mk (((s.data.dropWhile isPySpace).reverse.dropWhile isPySpace).reverse)

/-- Embedding of Python `s.lower()` (ASCII case folding, as used on the queries
that reach the classifier). -/
def lowerStr (s : String) : String :=
  String.mk (s.data.map Char.toLower)

/-- Auxiliary for substring search: does `needle` occur at the head of `hay`? -/
def startsWithSeq : List Char → List Char → Bool
  | [], _ => true
  | _ :: _, [] => false
  | a :: as, b :: bs => a == b && startsWithSeq as bs

/-- Auxiliary for substring search: does `needle` occur anywhere in `hay`? -/
def containsSeq (needle : List Char) : List Char → Bool
  | [] => needle.isEmpty
  | b :: bs => startsWithSeq needle (b :: bs) || containsSeq needle bs

/-- Embedding of the Python substring test `needle in hay`. -/
def strHasSub (hay needle : String) : Bool :=
  containsSeq needle.data hay.data

/-- Embedding of the `CloudProvider` dataclass (src/hypervisor_agent.py, lines 19-26). -/
structure CloudProvider where
  name : String
  services : List String
  iac_tools : List String
  cli_tools : List String
  sdks : List String
deriving DecidableEq


/- Catalog data extracted verbatim from the Python sources: the nested example
dicts, recommendation dicts and their fallback lists, the Terraform and
Kubernetes example strings, and the provider/hypervisor/service tables. -/

def awsBoto3Examples : List (String × List (String × String)) := [
  ("ec2", [
    ("list_instances",
     "\nimport boto3\n\nec2 = boto3.client(\x27ec2\x27)\nresponse = ec2.describe_instances()\n\nfor reservation in response[\x27Reservations\x27]:\n    for instance in reservation[\x27Instances\x27]:\n        print(f\"Instance ID: \x7binstance[\x27InstanceId\x27]\x7d\")\n        print(f\"State: \x7binstance[\x27State\x27][\x27Name\x27]\x7d\")\n        print(f\"Type: \x7binstance[\x27InstanceType\x27]\x7d\")\n        print(\"---\")\n                "),
    ("create_instance",
     "\nimport boto3\n\nec2 = boto3.client(\x27ec2\x27)\n\nresponse = ec2.run_instances(\n    ImageId=\x27ami-0c55b159cbfafe1d0\x27,\n    MinCount=1,\n    MaxCount=1,\n    InstanceType=\x27t2.micro\x27,\n    KeyName=\x27my-key-pair\x27,\n    SecurityGroupIds=[\x27sg-12345678\x27],\n    SubnetId=\x27subnet-12345678\x27,\n    TagSpecifications=[\n        \x7b\n            \x27ResourceType\x27: \x27instance\x27,\n            \x27Tags\x27: [\n                \x7b\x27Key\x27: \x27Name\x27, \x27Value\x27: \x27MyInstance\x27\x7d\n            ]\n        \x7d\n    ]\n)\n\nprint(f\"Instance created: \x7bresponse[\x27Instances\x27][0][\x27InstanceId\x27]\x7d\")\n                ")]),
  ("s3", [
    ("upload_file",
     "\nimport boto3\n\ns3 = boto3.client(\x27s3\x27)\n\n# Upload a file\ns3.upload_file(\x27local_file.txt\x27, \x27my-bucket\x27, \x27remote_file.txt\x27)\n\n# Upload with metadata\ns3.upload_file(\n    \x27local_file.txt\x27, \n    \x27my-bucket\x27, \n    \x27remote_file.txt\x27,\n    ExtraArgs=\x7b\x27Metadata\x27: \x7b\x27uploaded-by\x27: \x27python-script\x27\x7d\x7d\n)\n                "),
    ("list_objects",
     "\nimport boto3\n\ns3 = boto3.client(\x27s3\x27)\n\nresponse = s3.list_objects_v2(Bucket=\x27my-bucket\x27)\n\nfor obj in response.get(\x27Contents\x27, []):\n    print(f\"Key: \x7bobj[\x27Key\x27]\x7d\")\n    print(f\"Size: \x7bobj[\x27Size\x27]\x7d bytes\")\n    print(f\"Modified: \x7bobj[\x27LastModified\x27]\x7d\")\n    print(\"---\")\n                ")])
]

def azureSdkExamples : List (String × List (String × String)) := [
  ("compute", [
    ("list_vms",
     "\nfrom azure.identity import DefaultAzureCredential\nfrom azure.mgmt.compute import ComputeManagementClient\n\ncredential = DefaultAzureCredential()\nsubscription_id = \"your-subscription-id\"\n\ncompute_client = ComputeManagementClient(credential, subscription_id)\n\n# List all VMs in subscription\nfor vm in compute_client.virtual_machines.list_all():\n    print(f\"VM Name: \x7bvm.name\x7d\")\n    print(f\"Location: \x7bvm.location\x7d\")\n    print(f\"VM Size: \x7bvm.hardware_profile.vm_size\x7d\")\n    print(\"---\")\n                "),
    ("create_vm",
     "\nfrom azure.identity import DefaultAzureCredential\nfrom azure.mgmt.compute import ComputeManagementClient\nfrom azure.mgmt.network import NetworkManagementClient\nfrom azure.mgmt.resource import ResourceManagementClient\n\ncredential = DefaultAzureCredential()\nsubscription_id = \"your-subscription-id\"\nresource_group_name = \"my-resource-group\"\nvm_name = \"my-vm\"\n\ncompute_client = ComputeManagementClient(credential, subscription_id)\n\nvm_parameters = \x7b\n    \x27location\x27: \x27East US\x27,\n    \x27os_profile\x27: \x7b\n        \x27computer_name\x27: vm_name,\n        \x27admin_username\x27: \x27adminuser\x27,\n        \x27linux_configuration\x27: \x7b\n            \x27disable_password_authentication\x27: True,\n            \x27ssh\x27: \x7b\n                \x27public_keys\x27: [\x7b\n                    \x27path\x27: \x27/home/adminuser/.ssh/authorized_keys\x27,\n                    \x27key_data\x27: \x27your-ssh-public-key\x27\n                \x7d]\n            \x7d\n        \x7d\n    \x7d,\n    \x27hardware_profile\x27: \x7b\n        \x27vm_size\x27: \x27Standard_B1s\x27\n    \x7d,\n    \x27storage_profile\x27: \x7b\n        \x27image_reference\x27: \x7b\n            \x27publisher\x27: \x27Canonical\x27,\n            \x27offer\x27: \x270001-com-ubuntu-server-jammy\x27,\n            \x27sku\x27: \x2722_04-lts\x27,\n            \x27version\x27: \x27latest\x27\n        \x7d\n    \x7d,\n    \x27network_profile\x27: \x7b\n        \x27network_interfaces\x27: [\x7b\n            \x27id\x27: \x27/subscriptions/\x7bsubscription_id\x7d/resourceGroups/\x7bresource_group_name\x7d/providers/Microsoft.Network/networkInterfaces/\x7bvm_name\x7d-nic\x27\n        \x7d]\n    \x7d\n\x7d\n\nasync_vm_creation = compute_client.virtual_machines.begin_create_or_update(\n    resource_group_name, vm_name, vm_parameters\n)\nvm_result = async_vm_creation.result()\n\nprint(f\"VM \x7bvm_result.name\x7d created successfully\")\n                ")]),
  ("storage", [
    ("upload_blob",
     "\nfrom azure.storage.blob import BlobServiceClient\nfrom azure.identity import DefaultAzureCredential\n\ncredential = DefaultAzureCredential()\naccount_url = \"https://yourstorageaccount.blob.core.windows.net\"\n\nblob_service_client = BlobServiceClient(account_url, credential=credential)\ncontainer_name = \"mycontainer\"\nblob_name = \"myblob.txt\"\ndata = \"Hello, Azure Blob Storage!\"\n\n# Upload blob\nblob_client = blob_service_client.get_blob_client(\n    container=container_name, \n    blob=blob_name\n)\n\nblob_client.upload_blob(data, overwrite=True)\nprint(f\"Blob \x7bblob_name\x7d uploaded successfully\")\n                "),
    ("list_blobs",
     "\nfrom azure.storage.blob import BlobServiceClient\nfrom azure.identity import DefaultAzureCredential\n\ncredential = DefaultAzureCredential()\naccount_url = \"https://yourstorageaccount.blob.core.windows.net\"\n\nblob_service_client = BlobServiceClient(account_url, credential=credential)\ncontainer_name = \"mycontainer\"\n\ncontainer_client = blob_service_client.get_container_client(container_name)\n\n# List blobs in container\nfor blob in container_client.list_blobs():\n    print(f\"Blob name: \x7bblob.name\x7d\")\n    print(f\"Size: \x7bblob.size\x7d bytes\")\n    print(f\"Last modified: \x7bblob.last_modified\x7d\")\n    print(\"---\")\n                ")])
]

def gcpSdkExamples : List (String × List (String × String)) := [
  ("compute", [
    ("list_instances",
     "\nfrom google.cloud import compute_v1\n\ndef list_all_instances(project_id: str):\n    \"\"\"\n    List all instances in the given project in all zones.\n    \"\"\"\n    instance_client = compute_v1.InstancesClient()\n    zones_client = compute_v1.ZonesClient()\n    \n    # Get all zones\n    zones = zones_client.list(project=project_id)\n    \n    for zone in zones:\n        print(f\"Instances in zone: \x7bzone.name\x7d\")\n        \n        instances = instance_client.list(project=project_id, zone=zone.name)\n        \n        for instance in instances:\n            print(f\"  Name: \x7binstance.name\x7d\")\n            print(f\"  Machine Type: \x7binstance.machine_type\x7d\")\n            print(f\"  Status: \x7binstance.status\x7d\")\n            print(\"  ---\")\n\n# Usage\nproject_id = \"your-project-id\"\nlist_all_instances(project_id)\n                "),
    ("create_instance",
     "\nfrom google.cloud import compute_v1\nimport time\n\ndef create_instance(project_id: str, zone: str, instance_name: str):\n    \"\"\"\n    Create a new instance in the given project and zone.\n    \"\"\"\n    instance_client = compute_v1.InstancesClient()\n    \n    # Configure the machine\n    config = compute_v1.Instance()\n    config.name = instance_name\n    config.machine_type = f\"zones/\x7bzone\x7d/machineTypes/e2-micro\"\n    \n    # Configure the boot disk\n    boot_disk = compute_v1.AttachedDisk()\n    boot_disk.auto_delete = True\n    boot_disk.boot = True\n    boot_disk.type_ = compute_v1.AttachedDisk.Type.PERSISTENT\n    \n    initialize_params = compute_v1.AttachedDiskInitializeParams()\n    initialize_params.source_image = \"projects/debian-cloud/global/images/family/debian-11\"\n    initialize_params.disk_size_gb = 20\n    boot_disk.initialize_params = initialize_params\n    \n    config.disks = [boot_disk]\n    \n    # Configure the network interface\n    network_interface = compute_v1.NetworkInterface()\n    network_interface.name = \"global/networks/default\"\n    \n    access_config = compute_v1.AccessConfig()\n    access_config.type_ = compute_v1.AccessConfig.Type.ONE_TO_ONE_NAT\n    access_config.name = \"External NAT\"\n    network_interface.access_configs = [access_config]\n    \n    config.network_interfaces = [network_interface]\n    \n    # Create the instance\n    request = compute_v1.InsertInstanceRequest()\n    request.project = project_id\n    request.zone = zone\n    request.instance_resource = config\n    \n    operation = instance_client.insert(request=request)\n    \n    print(f\"Creating instance \x7binstance_name\x7d...\")\n    \n    # Wait for the operation to complete\n    while operation.status != compute_v1.Operation.Status.DONE:\n        time.sleep(1)\n        operation = compute_v1.ZoneOperationsClient().get(\n            project=project_id, zone=zone, operation=operation.name\n        )\n    \n    print(f\"Instance \x7binstance_name\x7d created successfully!\")\n\n# Usage\ncreate_instance(\"your-project-id\", \"us-central1-a\", \"my-instance\")\n                ")]),
  ("storage", [
    ("upload_blob",
     "\nfrom google.cloud import storage\n\ndef upload_blob(bucket_name: str, source_file_name: str, destination_blob_name: str):\n    \"\"\"Uploads a file to the bucket.\"\"\"\n    \n    storage_client = storage.Client()\n    bucket = storage_client.bucket(bucket_name)\n    blob = bucket.blob(destination_blob_name)\n    \n    # Upload the file\n    blob.upload_from_filename(source_file_name)\n    \n    print(f\"File \x7bsource_file_name\x7d uploaded to \x7bdestination_blob_name\x7d.\")\n    \n    # Make the blob publicly viewable (optional)\n    blob.make_public()\n    print(f\"Blob \x7bdestination_blob_name\x7d is publicly accessible at \x7bblob.public_url\x7d\")\n\n# Usage\nupload_blob(\"my-bucket\", \"local-file.txt\", \"storage-object-name.txt\")\n                "),
    ("list_blobs",
     "\nfrom google.cloud import storage\n\ndef list_blobs(bucket_name: str):\n    \"\"\"Lists all the blobs in the bucket.\"\"\"\n    \n    storage_client = storage.Client()\n    bucket = storage_client.bucket(bucket_name)\n    \n    # List all blobs in the bucket\n    blobs = bucket.list_blobs()\n    \n    print(f\"Blobs in bucket \x7bbucket_name\x7d:\")\n    for blob in blobs:\n        print(f\"  Name: \x7bblob.name\x7d\")\n        print(f\"  Size: \x7bblob.size\x7d bytes\")\n        print(f\"  Created: \x7bblob.time_created\x7d\")\n        print(f\"  Updated: \x7bblob.updated\x7d\")\n        print(\"  ---\")\n\n# Usage\nlist_blobs(\"my-bucket\")\n                "),
    ("download_blob",
     "\nfrom google.cloud import storage\n\ndef download_blob(bucket_name: str, source_blob_name: str, destination_file_name: str):\n    \"\"\"Downloads a blob from the bucket.\"\"\"\n    \n    storage_client = storage.Client()\n    bucket = storage_client.bucket(bucket_name)\n    blob = bucket.blob(source_blob_name)\n    \n    # Download the file\n    blob.download_to_filename(destination_file_name)\n    \n    print(f\"Downloaded \x7bsource_blob_name\x7d to \x7bdestination_file_name\x7d.\")\n\n# Usage\ndownload_blob(\"my-bucket\", \"storage-object-name.txt\", \"local-file.txt\")\n                ")])
]

def awsRecommendations : List (String × List String) := [
  ("web_application", ["Use EC2 or ECS for compute",
    "Use ALB for load balancing",
    "Use RDS for relational database",
    "Use S3 for static assets",
    "Use CloudFront for CDN"]),
  ("api_backend", ["Use Lambda for serverless functions",
    "Use API Gateway for REST APIs",
    "Use DynamoDB for NoSQL database",
    "Use Cognito for authentication",
    "Use CloudWatch for monitoring"]),
  ("data_processing", ["Use EMR for big data processing",
    "Use Glue for ETL jobs",
    "Use Kinesis for streaming data",
    "Use S3 for data lake storage",
    "Use Athena for analytics"]),
  ("machine_learning", ["Use SageMaker for ML workflows",
    "Use S3 for training data storage",
    "Use Lambda for inference endpoints",
    "Use Batch for training jobs",
    "Use CloudWatch for model monitoring"])
]

def awsRecFallback : List String := ["Define your requirements more specifically",
  "Consider AWS Well-Architected Framework principles",
  "Start with basic services and expand as needed"]

def azureRecommendations : List (String × List String) := [
  ("web_application", ["Use App Service for web hosting",
    "Use Application Gateway for load balancing",
    "Use Azure SQL Database for relational data",
    "Use Storage Account for static files",
    "Use CDN for global content delivery"]),
  ("api_backend", ["Use Azure Functions for serverless APIs",
    "Use API Management for API gateway",
    "Use Cosmos DB for NoSQL database",
    "Use Active Directory B2C for authentication",
    "Use Application Insights for monitoring"]),
  ("data_processing", ["Use HDInsight for big data processing",
    "Use Data Factory for ETL pipelines",
    "Use Event Hubs for streaming data",
    "Use Data Lake Storage for data lake",
    "Use Synapse Analytics for data warehousing"]),
  ("machine_learning", ["Use Machine Learning service for ML workflows",
    "Use Cognitive Services for pre-built AI",
    "Use Container Instances for model serving",
    "Use Batch for training workloads",
    "Use Monitor for model performance tracking"])
]

def azureRecFallback : List String := ["Define your requirements more specifically",
  "Consider Azure Architecture Center patterns",
  "Start with basic services and expand as needed"]

def gcpRecommendations : List (String × List String) := [
  ("web_application", ["Use App Engine for fully managed web hosting",
    "Use Cloud Load Balancing for traffic distribution",
    "Use Cloud SQL for relational database",
    "Use Cloud Storage for static assets",
    "Use Cloud CDN for global content delivery"]),
  ("api_backend", ["Use Cloud Functions for serverless APIs",
    "Use API Gateway for API management",
    "Use Firestore for NoSQL database",
    "Use Identity and Access Management for authentication",
    "Use Cloud Monitoring for observability"]),
  ("data_processing", ["Use Dataflow for stream and batch processing",
    "Use Dataprep for data preparation",
    "Use Pub/Sub for messaging and event streaming",
    "Use BigQuery for data warehousing",
    "Use Cloud Storage for data lake"]),
  ("machine_learning", ["Use Vertex AI for ML platform",
    "Use AutoML for no-code ML models",
    "Use Cloud Functions for model serving",
    "Use AI Platform for custom training",
    "Use Cloud Monitoring for ML monitoring"]),
  ("container_workloads", ["Use Google Kubernetes Engine (GKE)",
    "Use Cloud Run for containerized apps",
    "Use Artifact Registry for container images",
    "Use Cloud Build for CI/CD",
    "Use Cloud Monitoring for container monitoring"])
]

def gcpRecFallback : List String := ["Define your requirements more specifically",
  "Consider Google Cloud Architecture Framework",
  "Start with basic services and expand as needed"]

def tf_example_aws : String :=
  "\n# AWS EC2 instance with Terraform\nresource \"aws_instance\" \"web\" \x7b\n  ami           = \"ami-0c55b159cbfafe1d0\"\n  instance_type = \"t2.micro\"\n  \n  tags = \x7b\n    Name = \"WebServer\"\n  \x7d\n\x7d\n            "

def tf_example_azure : String :=
  "\n# Azure VM with Terraform\nresource \"azurerm_linux_virtual_machine\" \"web\" \x7b\n  name                = \"web-vm\"\n  resource_group_name = azurerm_resource_group.main.name\n  location            = azurerm_resource_group.main.location\n  size                = \"Standard_B1s\"\n  admin_username      = \"adminuser\"\n\x7d\n            "

def tf_example_gcp : String :=
  "\n# GCP Compute instance with Terraform\nresource \"google_compute_instance\" \"web\" \x7b\n  name         = \"web-instance\"\n  machine_type = \"e2-micro\"\n  zone         = \"us-central1-a\"\n  \n  boot_disk \x7b\n    initialize_params \x7b\n      image = \"debian-cloud/debian-11\"\n    \x7d\n  \x7d\n\x7d\n            "

def k8s_example : String :=
  "\napiVersion: apps/v1\nkind: Deployment\nmetadata:\n  name: web-app\nspec:\n  replicas: 3\n  selector:\n    matchLabels:\n      app: web-app\n  template:\n    metadata:\n      labels:\n        app: web-app\n    spec:\n      containers:\n      - name: web\n        image: nginx:1.21\n        ports:\n        - containerPort: 80\n        "

def initialProviders : List (String × CloudProvider) := [
  ("aws", ⟨"Amazon Web Services",
    ["EC2", "VPC", "S3", "Lambda", "ECS", "EKS", "RDS", "CloudFormation"],
    ["CloudFormation", "CDK", "Terraform"],
    ["aws-cli", "eksctl", "kubectl"],
    ["boto3", "aws-sdk-js", "aws-sdk-go", "aws-sdk-java"]⟩),
  ("azure", ⟨"Microsoft Azure",
    ["VM", "VNet", "Storage", "Functions", "ACI", "AKS", "SQL Database", "ARM"],
    ["ARM Templates", "Bicep", "Terraform"],
    ["az-cli", "kubectl"],
    ["azure-sdk-python", "azure-sdk-js", "azure-sdk-go", "azure-sdk-java"]⟩),
  ("gcp", ⟨"Google Cloud Platform",
    ["Compute Engine", "VPC", "Cloud Storage", "Cloud Functions", "GKE", "Cloud SQL"],
    ["Deployment Manager", "Terraform"],
    ["gcloud", "kubectl"],
    ["google-cloud-python", "google-cloud-js", "google-cloud-go", "google-cloud-java"]⟩)
]

def initialHypervisors : List (String × List (String × List String)) := [
  ("vmware", [
    ("products", ["vSphere", "ESXi", "vCenter", "NSX", "vSAN"]),
    ("apis", ["vSphere API", "REST API", "PowerCLI"]),
    ("tools", ["PowerCLI", "vSphere Client", "govc"])]),
  ("hyper-v", [
    ("products", ["Hyper-V", "System Center VMM", "Windows Admin Center"]),
    ("apis", ["Hyper-V PowerShell", "WMI", "REST API"]),
    ("tools", ["PowerShell", "Hyper-V Manager", "SCVMM"])]),
  ("kvm", [
    ("products", ["KVM", "QEMU", "libvirt"]),
    ("apis", ["libvirt API", "QEMU Monitor"]),
    ("tools", ["virsh", "virt-manager", "qemu-img"])])
]

def awsServices : List (String × List String) := [
  ("compute", ["EC2", "Lambda", "ECS", "EKS", "Batch"]),
  ("storage", ["S3", "EBS", "EFS", "FSx"]),
  ("database", ["RDS", "DynamoDB", "ElastiCache", "DocumentDB"]),
  ("networking", ["VPC", "CloudFront", "Route53", "ALB", "NLB"]),
  ("security", ["IAM", "Cognito", "Secrets Manager", "KMS"]),
  ("monitoring", ["CloudWatch", "X-Ray", "CloudTrail"])
]


/-- Embedding of `AWSHelper.generate_boto3_example` (src/aws_helper.py, lines 304-380):
`examples.get(service, {}).get(operation, f"# Example for {service} {operation} not available")`
over the nested snippet dict `awsBoto3Examples`. -/
def AWSHelper.generate_boto3_example (service operation : String) : String :=
  (dictGet ((dictGet awsBoto3Examples service).getD []) operation).getD
    ("# Example for " ++ service ++ " " ++ operation ++ " not available")

/-- Embedding of `AzureHelper.generate_azure_sdk_example` (src/azure_helper.py, lines 431-549). -/
def AzureHelper.generate_azure_sdk_example (service operation : String) : String :=
  (dictGet ((dictGet azureSdkExamples service).getD []) operation).getD
    ("# Example for " ++ service ++ " " ++ operation ++ " not available")

/-- Embedding of `GCPHelper.generate_gcp_sdk_example` (src/gcp_helper.py, lines 337-498). -/
def GCPHelper.generate_gcp_sdk_example (service operation : String) : String :=
  (dictGet ((dictGet gcpSdkExamples service).getD []) operation).getD
    ("# Example for " ++ service ++ " " ++ operation ++ " not available")

/-- Membership test for a nested snippet catalog: is the (service, operation)
pair present? -/
def catalogHas (cat : List (String × List (String × String))) (service operation : String) : Bool :=
  (dictGet ((dictGet cat service).getD []) operation).isSome

/-- Embedding of `AWSHelper.get_service_recommendations` (src/aws_helper.py, lines 265-302):
`recommendations.get(use_case, [generic 3-item fallback])`. -/
def AWSHelper.get_service_recommendations (use_case : String) : List String :=
  (dictGet awsRecommendations use_case).getD awsRecFallback

/-- Embedding of `AzureHelper.get_service_recommendations` (src/azure_helper.py, lines 551-588). -/
def AzureHelper.get_service_recommendations (use_case : String) : List String :=
  (dictGet azureRecommendations use_case).getD azureRecFallback

/-- Embedding of `GCPHelper.get_service_recommendations` (src/gcp_helper.py, lines 500-544). -/
def GCPHelper.get_service_recommendations (use_case : String) : List String :=
  (dictGet gcpRecommendations use_case).getD gcpRecFallback

/-- The per-provider Terraform example dict of `HypervisorAgent._get_terraform_example`
(src/hypervisor_agent.py, lines 119-158). -/
def terraformExamples : List (String × String) :=
  [("aws", tf_example_aws), ("azure", tf_example_azure), ("gcp", tf_example_gcp)]

/-- Embedding of `HypervisorAgent._get_terraform_example` (src/hypervisor_agent.py,
lines 119-158): `examples.get(provider, examples['aws'])`; a `None` or unknown
provider falls back to the AWS example. -/
def HypervisorAgent.get_terraform_example (provider : Option String) : String :=
  (match provider with
   | some p => dictGet terraformExamples p
   | none => none).getD tf_example_aws

/-- Embedding of `HypervisorAgent._get_k8s_example` (src/hypervisor_agent.py,
lines 160-182): returns the fixed Kubernetes deployment snippet for any provider. -/
def HypervisorAgent.get_k8s_example (_provider : Option String) : String :=
  k8s_example

/-- Result dict built by `HypervisorAgent.suggest_solution` (src/hypervisor_agent.py,
lines 96-117), with the five keys of the `suggestions` dict as fields. -/
structure Suggestions where
  query : String
  provider : Option String
  recommendations : List String
  code_examples : List String
  best_practices : List String
deriving DecidableEq

/-- Embedding of `HypervisorAgent.suggest_solution` (src/hypervisor_agent.py, lines 96-117):
start from the empty suggestion bundle echoing query and provider, then append one
recommendation and one snippet for each trigger keyword found in the lowered query,
checking `terraform` first and `kubernetes` second. -/
def HypervisorAgent.suggest_solution (query : String) (provider : Option String) : Suggestions :=
  let suggestions : Suggestions :=
    { query := query, provider := provider,
      recommendations := [], code_examples := [], best_practices := [] }
  let suggestions :=
    if strHasSub (lowerStr query) "terraform" then
      { suggestions with
          recommendations := suggestions.recommendations ++
            ["Use Terraform for infrastructure as code"],
          code_examples := suggestions.code_examples ++
            [HypervisorAgent.get_terraform_example provider] }
    else suggestions
  let suggestions :=
    if strHasSub (lowerStr query) "kubernetes" then
      { suggestions with
          recommendations := suggestions.recommendations ++
            ["Consider managed Kubernetes services"],
          code_examples := suggestions.code_examples ++
            [HypervisorAgent.get_k8s_example provider] }
    else suggestions
  suggestions

/-- JSON response of the `/query` POST handler `query_agent` (src/app.py lines 31-56
and src/simple_app.py lines 26-51, whose bodies are identical): either the error
object or the success object with its data fields. -/
inductive QueryResponse where
  | error (message : String)
  | success (query : String) (provider : String)
      (recommendations : List String) (code_examples : List String)
deriving DecidableEq

/-- Embedding of the POST branch of `query_agent` (src/app.py, lines 37-53; identical in
src/simple_app.py, lines 32-48): strip the form fields, reject an empty query with the
error message, otherwise classify with `suggest_solution` (provider `auto` meaning
absent) and echo the result; a falsy provider (`None` or empty) renders as `General`. -/
def query_agent (queryForm providerForm : String) : QueryResponse :=
  let query := pyStrip queryForm
  let provider := pyStrip providerForm
  if query == "" then
    QueryResponse.error "Please enter a query"
  else
    let result := HypervisorAgent.suggest_solution query
      (if provider != "auto" then some provider else none)
    QueryResponse.success result.query
      (match result.provider with
       | none => "General"
       | some p => if p == "" then "General" else p)
      result.recommendations result.code_examples

/-- State of a `HypervisorAgent` instance (src/hypervisor_agent.py, lines 32-34):
the two catalog dicts set up in `__init__`. -/
structure HypervisorAgentState where
  cloud_providers : List (String × CloudProvider)
  hypervisors : List (String × List (String × List String))

/-- Embedding of `HypervisorAgent.__init__` (src/hypervisor_agent.py, lines 32-34). -/
def HypervisorAgent.mkAgent : HypervisorAgentState :=
  ⟨initialProviders, initialHypervisors⟩

/-- State of an `AWSHelper` instance (src/aws_helper.py, lines 12-20): the
`services` dict set up in `__init__`. -/
structure AWSHelperState where
  services : List (String × List String)

/-- Embedding of `AWSHelper.__init__` (src/aws_helper.py, lines 12-20). -/
def AWSHelper.mkHelper : AWSHelperState :=
  ⟨awsServices⟩

/-- Method-level embedding of `HypervisorAgent.suggest_solution`: the instance state
is threaded explicitly; the method body never assigns to `self`, so the state is
returned unchanged. -/
def HypervisorAgent.suggest_solution_method (self : HypervisorAgentState)
    (query : String) (provider : Option String) : Suggestions × HypervisorAgentState :=
  (HypervisorAgent.suggest_solution query provider, self)

/-- Method-level embedding of `AWSHelper.get_service_recommendations`: the instance
state is threaded explicitly and returned unchanged (the body only builds a local dict). -/
def AWSHelper.get_service_recommendations_method (self : AWSHelperState)
    (use_case : String) : List String × AWSHelperState :=
  (AWSHelper.get_service_recommendations use_case, self)

/-- Method-level embedding of `AWSHelper.generate_boto3_example`: the instance state
is threaded explicitly and returned unchanged. -/
def AWSHelper.generate_boto3_example_method (self : AWSHelperState)
    (service operation : String) : String × AWSHelperState :=
  (AWSHelper.generate_boto3_example service operation, self)

/-- Helper: a failed catalog membership test means the nested lookup is `none`. -/
lemma catalogHas_eq_false {cat : List (String × List (String × String))} {s o : String}
    (h : catalogHas cat s o = false) :
    dictGet ((dictGet cat s).getD []) o = none := by
  unfold catalogHas at h
  cases ho : dictGet ((dictGet cat s).getD []) o with
  | none => rfl
  | some v => rw [ho] at h; simp at h

/-- Helper: a dict lookup with a nonempty default and all-nonempty entries is nonempty. -/
lemma dictGet_getD_ne_nil {m : List (String × List String)} {k : String} {d : List String}
    (hm : ∀ p ∈ m, p.2 ≠ ([] : List String)) (hd : d ≠ []) :
    (dictGet m k).getD d ≠ [] := by
  cases h : dictGet m k with
  | none => simpa using hd
  | some v =>
    simp only [Option.getD_some]
    unfold dictGet at h
    obtain ⟨p, hp, hpv⟩ := Option.map_eq_some'.mp h
    rw [← hpv]
    exact hm p (List.mem_of_find?_eq_some hp)

/-- C1 counterexample: the pair (nosvc, noop) is absent from the AWS snippet catalog,
yet `generate_boto3_example` does not return the string the claim states — the code's
fallback carries a leading "# " that the claim omits. -/
theorem C1_counterexample :
    catalogHas awsBoto3Examples "nosvc" "noop" = false ∧
    AWSHelper.generate_boto3_example "nosvc" "noop" ≠
      "Example for nosvc noop not available" := by
  constructor
  · decide
  · decide

/-- C1 (amended): for every (provider, service, operation) triple whose (service,
operation) pair is not present in that provider's own snippet catalog, that provider's
SDK-example lookup returns the literal fallback
"# Example for <service> <operation> not available" with the arguments substituted —
that is, the claimed string prefixed by "# ". Each provider's implication depends only
on its own catalog, so a pair present in one catalog but missing from another is still
covered for the provider it is missing from. -/
theorem C1_theorem (service operation : String) :
    (catalogHas awsBoto3Examples service operation = false →
      AWSHelper.generate_boto3_example service operation =
        "# Example for " ++ service ++ " " ++ operation ++ " not available") ∧
    (catalogHas azureSdkExamples service operation = false →
      AzureHelper.generate_azure_sdk_example service operation =
        "# Example for " ++ service ++ " " ++ operation ++ " not available") ∧
    (catalogHas gcpSdkExamples service operation = false →
      GCPHelper.generate_gcp_sdk_example service operation =
        "# Example for " ++ service ++ " " ++ operation ++ " not available") := by
  refine ⟨fun ha => ?_, fun hz => ?_, fun hg => ?_⟩
  · simp [AWSHelper.generate_boto3_example, catalogHas_eq_false ha]
  · simp [AzureHelper.generate_azure_sdk_example, catalogHas_eq_false hz]
  · simp [GCPHelper.generate_gcp_sdk_example, catalogHas_eq_false hg]

/-- C1 witness: the amended fallback equality evaluated at cross-catalog pairs —
(compute, list_vms) is missing from the AWS catalog though present in Azure's, and
(ec2, list_instances) is present in AWS's catalog but missing from Azure's and GCP's. -/
theorem C1_witness :
    AWSHelper.generate_boto3_example "compute" "list_vms" =
      "# Example for " ++ "compute" ++ " " ++ "list_vms" ++ " not available" ∧
    AzureHelper.generate_azure_sdk_example "ec2" "list_instances" =
      "# Example for " ++ "ec2" ++ " " ++ "list_instances" ++ " not available" ∧
    GCPHelper.generate_gcp_sdk_example "ec2" "list_instances" =
      "# Example for " ++ "ec2" ++ " " ++ "list_instances" ++ " not available" := by
  have h1 := C1_theorem "compute" "list_vms"
  have h2 := C1_theorem "ec2" "list_instances"
  exact ⟨h1.1 (by decide), h2.2.1 (by decide), h2.2.2 (by decide)⟩

/-- C2: the classifier lower-cases the query, checks `terraform` first and
`kubernetes` second as substrings, and for each keyword present appends exactly one
associated recommendation and one associated snippet, in that fixed checking order;
the two checks are independent, so the result sequences are exactly the concatenation
of the per-keyword contributions. -/
theorem C2_theorem (query : String) (provider : Option String) :
    (HypervisorAgent.suggest_solution query provider).recommendations =
      (if strHasSub (lowerStr query) "terraform" = true then
        ["Use Terraform for infrastructure as code"] else []) ++
      (if strHasSub (lowerStr query) "kubernetes" = true then
        ["Consider managed Kubernetes services"] else []) ∧
    (HypervisorAgent.suggest_solution query provider).code_examples =
      (if strHasSub (lowerStr query) "terraform" = true then
        [HypervisorAgent.get_terraform_example provider] else []) ++
      (if strHasSub (lowerStr query) "kubernetes" = true then
        [HypervisorAgent.get_k8s_example provider] else []) := by
  cases h1 : strHasSub (lowerStr query) "terraform" <;>
    cases h2 : strHasSub (lowerStr query) "kubernetes" <;>
      simp [HypervisorAgent.suggest_solution, h1, h2]

/-- C3 counterexample: the empty and whitespace-only queries are rejected, but not
with the message the claim states — the code capitalizes "Please". -/
theorem C3_counterexample :
    query_agent "" "aws" ≠ QueryResponse.error "please enter a query" ∧
    query_agent "   " "aws" ≠ QueryResponse.error "please enter a query" := by
  constructor
  · decide
  · decide

/-- C3 (amended): a query that is empty after stripping whitespace yields the
validation error response with the user-facing message "Please enter a query"
(capital P), for any provider field, and never a success result. -/
theorem C3_theorem (queryForm providerForm : String) (h : pyStrip queryForm = "") :
    query_agent queryForm providerForm = QueryResponse.error "Please enter a query" := by
  simp [query_agent, h]

/-- C3 witness: the whitespace-only query evaluated concretely. -/
theorem C3_witness :
    pyStrip "   " = "" ∧
    query_agent "   " "auto" = QueryResponse.error "Please enter a query" :=
  ⟨by decide, C3_theorem "   " "auto" (by decide)⟩

/-- C4: for every supported provider and every use-case string the recommendation
lookup returns a non-empty sequence; an unmapped use case returns exactly the
provider's 3-item generic fallback, which begins "Define your requirements more
specifically" and has the same size (3) for all three providers. -/
theorem C4_theorem (use_case : String) :
    (AWSHelper.get_service_recommendations use_case ≠ [] ∧
     AzureHelper.get_service_recommendations use_case ≠ [] ∧
     GCPHelper.get_service_recommendations use_case ≠ []) ∧
    (dictGet awsRecommendations use_case = none →
      AWSHelper.get_service_recommendations use_case = awsRecFallback) ∧
    (dictGet azureRecommendations use_case = none →
      AzureHelper.get_service_recommendations use_case = azureRecFallback) ∧
    (dictGet gcpRecommendations use_case = none →
      GCPHelper.get_service_recommendations use_case = gcpRecFallback) ∧
    (awsRecFallback.length = 3 ∧ azureRecFallback.length = 3 ∧ gcpRecFallback.length = 3) ∧
    (awsRecFallback.head? = some "Define your requirements more specifically" ∧
     azureRecFallback.head? = some "Define your requirements more specifically" ∧
     gcpRecFallback.head? = some "Define your requirements more specifically") := by
  refine ⟨⟨?_, ?_, ?_⟩, ?_, ?_, ?_, by decide, by decide⟩
  · exact dictGet_getD_ne_nil (by decide) (by decide)
  · exact dictGet_getD_ne_nil (by decide) (by decide)
  · exact dictGet_getD_ne_nil (by decide) (by decide)
  · intro h; simp [AWSHelper.get_service_recommendations, h]
  · intro h; simp [AzureHelper.get_service_recommendations, h]
  · intro h; simp [GCPHelper.get_service_recommendations, h]

/-- C4 witness: the unmapped use case `unknown_use_case` evaluated concretely
yields the generic fallback for all three providers, in particular non-empty. -/
theorem C4_witness :
    AWSHelper.get_service_recommendations "unknown_use_case" ≠ [] ∧
    AWSHelper.get_service_recommendations "unknown_use_case" = awsRecFallback ∧
    AzureHelper.get_service_recommendations "unknown_use_case" = azureRecFallback ∧
    GCPHelper.get_service_recommendations "unknown_use_case" = gcpRecFallback := by
  have h := C4_theorem "unknown_use_case"
  exact ⟨h.1.1, h.2.1 (by decide), h.2.2.1 (by decide), h.2.2.2.1 (by decide)⟩

/-- C5 counterexample: with an absent provider the result's provider field stays
absent; it is not replaced by the baseline default `aws` as the claim states. -/
theorem C5_counterexample :
    (HypervisorAgent.suggest_solution "x" none).provider ≠ some "aws" ∧
    (HypervisorAgent.suggest_solution "x" none).provider = none := by
  constructor
  · decide
  · decide

/-- C5 (amended): the result of classification echoes the input query string and the
provider argument exactly as given — an absent provider is echoed as absent; the
default to `aws` applies only to snippet resolution, not to the echoed field. -/
theorem C5_theorem (query : String) (provider : Option String) :
    (HypervisorAgent.suggest_solution query provider).query = query ∧
    (HypervisorAgent.suggest_solution query provider).provider = provider := by
  cases h1 : strHasSub (lowerStr query) "terraform" <;>
    cases h2 : strHasSub (lowerStr query) "kubernetes" <;>
      simp [HypervisorAgent.suggest_solution, h1, h2]

/-- C6: classifying "terraform and kubernetes" with an absent provider matches both
keywords, in the fixed checking order (terraform first, kubernetes second), and the
terraform snippet is resolved with the default provider aws. -/
theorem C6_theorem :
    (HypervisorAgent.suggest_solution "terraform and kubernetes" none).recommendations =
      ["Use Terraform for infrastructure as code", "Consider managed Kubernetes services"] ∧
    (HypervisorAgent.suggest_solution "terraform and kubernetes" none).code_examples =
      [tf_example_aws, k8s_example] ∧
    HypervisorAgent.get_terraform_example none = tf_example_aws := by
  refine ⟨?_, ?_, ?_⟩ <;> rfl

/-- C7: a query containing neither trigger keyword classifies successfully to a
result with empty recommendation and snippet sequences, for any provider. -/
theorem C7_theorem (query : String) (provider : Option String)
    (h1 : strHasSub (lowerStr query) "terraform" = false)
    (h2 : strHasSub (lowerStr query) "kubernetes" = false) :
    (HypervisorAgent.suggest_solution query provider).recommendations = [] ∧
    (HypervisorAgent.suggest_solution query provider).code_examples = [] := by
  simp [HypervisorAgent.suggest_solution, h1, h2]

/-- C7 witness: the keyword-free query of the spec evaluated concretely with
provider azure. -/
theorem C7_witness :
    (HypervisorAgent.suggest_solution "no matching keywords here" (some "azure")).recommendations = [] ∧
    (HypervisorAgent.suggest_solution "no matching keywords here" (some "azure")).code_examples = [] :=
  C7_theorem "no matching keywords here" (some "azure") (by decide) (by decide)

/-- C8: every lookup and classify operation is deterministic and mutation-free in the
state-passing embedding — each method returns its instance state unchanged, and a
second call on the state returned by the first yields a deep-equal output. -/
theorem C8_theorem (st : HypervisorAgentState) (helper : AWSHelperState)
    (query : String) (provider : Option String) (use_case service operation : String) :
    ((HypervisorAgent.suggest_solution_method st query provider).2 = st ∧
     (HypervisorAgent.suggest_solution_method
        (HypervisorAgent.suggest_solution_method st query provider).2 query provider).1 =
       (HypervisorAgent.suggest_solution_method st query provider).1) ∧
    ((AWSHelper.get_service_recommendations_method helper use_case).2 = helper ∧
     (AWSHelper.get_service_recommendations_method
        (AWSHelper.get_service_recommendations_method helper use_case).2 use_case).1 =
       (AWSHelper.get_service_recommendations_method helper use_case).1) ∧
    ((AWSHelper.generate_boto3_example_method helper service operation).2 = helper ∧
     (AWSHelper.generate_boto3_example_method
        (AWSHelper.generate_boto3_example_method helper service operation).2 service operation).1 =
       (AWSHelper.generate_boto3_example_method helper service operation).1) :=
  ⟨⟨rfl, rfl⟩, ⟨rfl, rfl⟩, ⟨rfl, rfl⟩⟩

/-- C9: for every query and provider the result's recommendations and code_examples
have equal length (each matched keyword contributes exactly one of each), and the
best_practices sequence is always empty. -/
theorem C9_theorem (query : String) (provider : Option String) :
    (HypervisorAgent.suggest_solution query provider).recommendations.length =
      (HypervisorAgent.suggest_solution query provider).code_examples.length ∧
    (HypervisorAgent.suggest_solution query provider).best_practices = [] := by
  cases h1 : strHasSub (lowerStr query) "terraform" <;>
    cases h2 : strHasSub (lowerStr query) "kubernetes" <;>
      simp [HypervisorAgent.suggest_solution, h1, h2]

/-- C10: for every provider argument outside aws, azure, gcp — including the absent
provider — the terraform example lookup silently falls back to the AWS example text,
and the Kubernetes example is the same fixed snippet for every provider argument. -/
theorem C10_theorem (provider : Option String)
    (h1 : provider ≠ some "aws") (h2 : provider ≠ some "azure") (h3 : provider ≠ some "gcp") :
    HypervisorAgent.get_terraform_example provider = tf_example_aws ∧
    ∀ q : Option String, HypervisorAgent.get_k8s_example q = k8s_example := by
  constructor
  · cases provider with
    | none => rfl
    | some p =>
      have e1 : (("aws" : String) == p) = false :=
        beq_eq_false_iff_ne.mpr (fun h => h1 (by rw [h]))
      have e2 : (("azure" : String) == p) = false :=
        beq_eq_false_iff_ne.mpr (fun h => h2 (by rw [h]))
      have e3 : (("gcp" : String) == p) = false :=
        beq_eq_false_iff_ne.mpr (fun h => h3 (by rw [h]))
      simp [HypervisorAgent.get_terraform_example, dictGet, terraformExamples,
        List.find?, e1, e2, e3]
  · intro q; rfl

/-- C10 witness: the unknown provider hint `vmware` evaluated concretely. -/
theorem C10_witness :
    HypervisorAgent.get_terraform_example (some "vmware") = tf_example_aws ∧
    HypervisorAgent.get_k8s_example (some "vmware") = k8s_example := by
  have h := C10_theorem (some "vmware") (by decide) (by decide) (by decide)
  exact ⟨h.1, h.2 (some "vmware")⟩
